import Mathlib

/-!
Verification of the LCA impact-aggregation engine of `sanitation/_lca.py`
(repository QSDsan).

The Python module is shallowly embedded below.  Python floats are modelled as
rationals (`ℚ`), Python dicts as association lists (`List (Ind × _)`) with the
dict's insertion-order and update semantics, Python sets as duplicate-free
lists built with `setAdd`, and Python exceptions as the inductive type `Err`
inside `Except`.  The process-graph and impact-registry collaborators
(`biosteam.System`, units, streams, `ImpactItem`, `auom`) are external to the
module; their read surface (`units`, `streams`, `construction`,
`transportation`, `impact_item`, `F_mass`, `CFs`, `functional_unit`,
`indicators`, `_items`, unit conversion) is modelled from the spec's data
model: an entity's `indicators` is the key set of its characterization-factor
mapping, the registry is a list of items looked up by ID, and unit conversion
is an abstract partial function carried in `Env`.
-/

namespace QSD

/-- Impact indicators are referenced by their string ID everywhere. -/
abbrev Ind := String

/-- A Python value stored as an other-item quantity: either a number or a
`(quantity, unit)` tuple (the tuple shape is what `LCA.__init__` receives for
unit-bearing keyword arguments). -/
inductive PyVal where
  | num : ℚ → PyVal
  | pair : ℚ → String → PyVal
deriving DecidableEq, Repr

/-- Python exception classes raised by the module.  In CPython's hierarchy
`KeyError` is a subclass of `LookupError`; `AssertionError`, `TypeError` and
`KeyError` are not subclasses of `ValueError`. -/
inductive Err where
  | valueError
  | keyError
  | typeError
  | assertionError
deriving DecidableEq, Repr

/-- Whether the exception is of the `ValueError` class (CPython hierarchy). -/
def Err.isValueError : Err → Bool
  | Err.valueError => true
  | _ => false

/-- Whether the exception is of the `LookupError` class: in CPython,
`KeyError` is the only constructor here that subclasses `LookupError`. -/
def Err.isLookupError : Err → Bool
  | Err.keyError => true
  | _ => false

/-- Dict lookup: first binding of the key, as Python `d[k]`/`in`. -/
def alookup {α : Type} : List (Ind × α) → Ind → Option α
  | [], _ => none
  | (a, b) :: t, k => if a = k then some b else alookup t k

/-- Numeric dict read with default 0 (used only to state theorems about the
value a dict holds at an indicator). -/
def getD (d : List (Ind × ℚ)) (k : Ind) : ℚ := (alookup d k).getD 0

/-- Key list of a dict (Python `d.keys()` in insertion order). -/
def keys {α : Type} (d : List (Ind × α)) : List Ind := d.map Prod.fst

/-- Python dict assignment `d[k] = v`: overwrite the existing binding in
place, else append a new one. -/
def setKey {α : Type} : List (Ind × α) → Ind → α → List (Ind × α)
  | [], k, v => [(k, v)]
  | (a, b) :: t, k, v => if a = k then (a, v) :: t else (a, b) :: setKey t k v

/-- Python `impacts[m] += n`.  In the module every incremented key is present
(the dict is pre-seeded with the whole indicator set), so the missing-key
`KeyError` path of CPython is never taken; a missing key is left unchanged. -/
def addAt : List (Ind × ℚ) → Ind → ℚ → List (Ind × ℚ)
  | [], _, _ => []
  | (a, b) :: t, m, n => (if a = m then (a, b + n) else (a, b)) :: addAt t m n

/-- Python `dict.fromkeys(ks, 0.)`. -/
def fromKeys (ks : List Ind) : List (Ind × ℚ) := ks.map (fun k => (k, (0 : ℚ)))

/-- Python set `s.add(x)`: insert if not already a member. -/
def setAdd {α : Type} [DecidableEq α] (s : List α) (x : α) : List α :=
  if x ∈ s then s else s ++ [x]

/-- The inner aggregation loop `for m, n in entries: impacts[m] += g (m, n)`
shared by every impact category. -/
def applyInc (g : Ind × ℚ → ℚ) (d : List (Ind × ℚ)) (l : List (Ind × ℚ)) :
    List (Ind × ℚ) :=
  l.foldl (fun d mn => addAt d mn.1 (g mn)) d

/-- The outer aggregation loop `for j in inventory: for (m, n) in es j:
impacts[m] += g j (m, n)` shared by every impact category. -/
def foldCat {β : Type} (g : β → Ind × ℚ → ℚ) (es : β → List (Ind × ℚ))
    (inv : List β) (d : List (Ind × ℚ)) : List (Ind × ℚ) :=
  inv.foldl (fun d j => applyInc (g j) d (es j)) d

/-- Sum of `g` over the entries of `l` whose key is `k`. -/
def contribSum (g : Ind × ℚ → ℚ) : List (Ind × ℚ) → Ind → ℚ
  | [], _ => 0
  | mn :: t, k => (if mn.1 = k then g mn else 0) + contribSum g t k

/-- Sum of the raw values of `l` at key `k` (characterization factors of one
entity for one indicator; a single entry for duplicate-free dicts). -/
def cfSum (l : List (Ind × ℚ)) (k : Ind) : ℚ := contribSum (fun mn => mn.2) l k

/-- Modelled from the spec: an `ImpactItem` of the registry — ID, functional
unit and characterization-factor mapping (indicator ID → factor). -/
structure ImpactItem where
  ID : String
  functional_unit : String
  CFs : List (Ind × ℚ)
deriving DecidableEq, Repr

/-- Modelled from the spec: the indicator set of an item is the key set of
its characterization-factor mapping. -/
def ImpactItem.indicators (it : ImpactItem) : List Ind := keys it.CFs

/-- Modelled from the spec: a construction activity attached to a unit; its
`impacts` are already-computed one-time values. -/
structure Construction where
  impacts : List (Ind × ℚ)
deriving DecidableEq, Repr

/-- Modelled from the spec: indicator set of a construction activity. -/
def Construction.indicators (c : Construction) : List Ind := keys c.impacts

/-- Modelled from the spec: a transportation activity attached to a unit;
`impacts` is per `interval` hours. -/
structure Transportation where
  impacts : List (Ind × ℚ)
  interval : ℚ
deriving DecidableEq, Repr

/-- Modelled from the spec: indicator set of a transportation activity. -/
def Transportation.indicators (t : Transportation) : List Ind := keys t.impacts

/-- Modelled from the spec: a `StreamImpactItem` attached to a stream,
exposing the linked item's characterization factors.  Its `linked_ws`
back-reference is modelled by pairing it with its stream in
`waste_stream_inventory`. -/
structure StreamImpactItem where
  CFs : List (Ind × ℚ)
deriving DecidableEq, Repr

/-- Modelled from the spec: indicator set of a stream impact item. -/
def StreamImpactItem.indicators (s : StreamImpactItem) : List Ind := keys s.CFs

/-- Modelled from the spec: a process stream: identity, mass flow rate
`F_mass` (kg/hr) and optional stream impact item.  `wsID` models CPython
object identity (`is`) for distinct stream objects. -/
structure WasteStream where
  wsID : Nat
  F_mass : ℚ
  impact_item : Option StreamImpactItem
deriving DecidableEq, Repr

/-- Modelled from the spec: a unit operation exposing its construction and
transportation activity lists (Python truthiness of these lists is the
`unit.construction` / `unit.transportation` flag). -/
structure ProcUnit where
  uID : Nat
  construction : List Construction
  transportation : List Transportation
deriving DecidableEq, Repr

/-- Modelled from the spec: the read surface of a `biosteam.System`:
enumerable units and streams. -/
structure System where
  units : List ProcUnit
  streams : List WasteStream
deriving DecidableEq, Repr

/-- Recursive ID lookup in the registry list (Python `ImpactItem._items`). -/
def lookupItems : List ImpactItem → String → Option ImpactItem
  | [], _ => none
  | it :: t, s => if it.ID = s then some it else lookupItems t s

/-- Modelled from the spec: the external collaborators consumed by the
module — the impact registry `items` and the unit-conversion service
`auom(u).convert(q, u2)`, an abstract partial function. -/
structure Env where
  items : List ImpactItem
  convert : String → String → ℚ → Option ℚ

/-- Registry lookup `items[s]` (returns `none` where CPython raises
`KeyError`; the raising call sites wrap this). -/
def Env.lookupItem (env : Env) (s : String) : Option ImpactItem :=
  lookupItems env.items s

/-- The state held by an `LCA` instance (`__slots__` of the class). -/
structure LCA where
  _system : System
  _construction_units : List ProcUnit
  _transportation_units : List ProcUnit
  _lca_waste_streams : List WasteStream
  _life_time : ℚ
  _other_items : List (String × PyVal)
deriving DecidableEq, Repr

/-- `LCA._update_system`: scans the system's units and streams, ADDING the
activity-flagged ones to the cached sets (the source never clears the sets),
then stores the system reference. -/
def _update_system (lca : LCA) (system : System) : LCA :=
  let cu_tu := system.units.foldl
    (fun (st : List ProcUnit × List ProcUnit) u =>
      ((if u.construction.isEmpty then st.1 else setAdd st.1 u),
       (if u.transportation.isEmpty then st.2 else setAdd st.2 u)))
    (lca._construction_units, lca._transportation_units)
  let wss := system.streams.foldl
    (fun s ws => if ws.impact_item.isSome then setAdd s ws else s)
    lca._lca_waste_streams
  { lca with
      _construction_units := cu_tu.1
      _transportation_units := cu_tu.2
      _lca_waste_streams := wss
      _system := system }

/-- The `system` property setter: `self._update_system(i)`. -/
def set_system (lca : LCA) (i : System) : LCA := _update_system lca i

/-- `LCA._update_life_time`: store the value as-is when the unit is empty or
`hr`, otherwise convert it to hours.  A failure of the external converter is
modelled as a `valueError`-carrying result. -/
def _update_life_time (env : Env) (lca : LCA) (life_time : ℚ) (unit : String) :
    Except Err LCA :=
  if unit = "" ∨ unit = "hr" then Except.ok { lca with _life_time := life_time }
  else
    match env.convert unit "hr" life_time with
    | some v => Except.ok { lca with _life_time := v }
    | none => Except.error Err.valueError

/-- The `item` argument of `add_other_item`: an ID string or a direct
`ImpactItem` reference. -/
inductive ItemArg where
  | str : String → ItemArg
  | item : ImpactItem → ItemArg
deriving DecidableEq, Repr

/-- `if isinstance(item, str): item = items[item]` — resolve a string through
the registry (CPython raises `KeyError` on a miss), pass an item through. -/
def resolveItem (env : Env) (item : ItemArg) : Except Err ImpactItem :=
  match item with
  | ItemArg.str s =>
    match env.lookupItem s with
    | some it => Except.ok it
    | none => Except.error Err.keyError
  | ItemArg.item it => Except.ok it

/-- `LCA.add_other_item(item, quantity, unit='')`: resolve the item, convert
the quantity when a non-empty unit differing from the functional unit is
given (raising `ValueError` when the conversion is unsupported — calling
`convert` on a tuple also raises inside the `try` and is re-raised as the
same `ValueError`), then store `self.other_items[item.ID] = quantity`. -/
def add_other_item (env : Env) (lca : LCA) (item : ItemArg) (quantity : PyVal)
    (unit : String) : Except Err LCA :=
  match resolveItem env item with
  | Except.error e => Except.error e
  | Except.ok it =>
    let fu := it.functional_unit
    if unit ≠ "" ∧ unit ≠ fu then
      match quantity with
      | PyVal.num q =>
        match env.convert unit fu q with
        | some q2 =>
          Except.ok { lca with
            _other_items := setKey lca._other_items it.ID (PyVal.num q2) }
        | none => Except.error Err.valueError
      | PyVal.pair _ _ => Except.error Err.valueError
    else
      Except.ok { lca with
        _other_items := setKey lca._other_items it.ID quantity }

/-- `LCA.__init__(system, life_time, life_time_unit='hr', **item_quantities)`:
initialise the cached sets empty, derive them from the system, convert the
life time, then for each keyword quantity try to unpack it as a
`(number, unit)` tuple and convert; the bare `except:` catches BOTH the
failed unpacking of a plain number AND any error raised by `add_other_item`
on the unpacked tuple, and falls back to `add_other_item(item, quantity)`
with the original (possibly tuple) value. -/
def LCA.init (env : Env) (system : System) (life_time : ℚ)
    (life_time_unit : String) (item_quantities : List (String × PyVal)) :
    Except Err LCA :=
  let lca0 : LCA :=
    { _system := system
      _construction_units := []
      _transportation_units := []
      _lca_waste_streams := []
      _life_time := 0
      _other_items := [] }
  let lca1 := _update_system lca0 system
  match _update_life_time env lca1 life_time life_time_unit with
  | Except.error e => Except.error e
  | Except.ok lca2 =>
    item_quantities.foldlM
      (fun lca iq =>
        match iq.2 with
        | PyVal.pair q u =>
          match add_other_item env lca (ItemArg.str iq.1) (PyVal.num q) u with
          | Except.ok lca3 => Except.ok lca3
          | Except.error _ =>
            add_other_item env lca (ItemArg.str iq.1) (PyVal.pair q u) ""
        | PyVal.num q => add_other_item env lca (ItemArg.str iq.1) (PyVal.num q) "")
      lca2

/-- `LCA.construction_inventory`: concatenation of the construction activity
tuples of the cached construction units. -/
def construction_inventory (lca : LCA) : List Construction :=
  (lca._construction_units.map ProcUnit.construction).flatten

/-- `LCA.transportation_inventory`: concatenation of the transportation
activity tuples of the cached transportation units. -/
def transportation_inventory (lca : LCA) : List Transportation :=
  (lca._transportation_units.map ProcUnit.transportation).flatten

/-- `LCA.waste_stream_inventory`: the impact items of the cached waste
streams; the Python objects carry a `linked_ws` back-reference, modelled here
by pairing each item with its stream. -/
def waste_stream_inventory (lca : LCA) : List (WasteStream × StreamImpactItem) :=
  lca._lca_waste_streams.filterMap
    (fun ws => ws.impact_item.map (fun j => (ws, j)))

/-- `LCA.indicators`: union of the indicator sets of the construction,
transportation and waste-stream inventories and of the registered items named
by `other_items` (a Python set; modelled as a deduplicated list).  A key of
`other_items` missing from the registry would raise `KeyError` in CPython; it
contributes nothing here and no claim exercises that path. -/
def indicators (env : Env) (lca : LCA) : List Ind :=
  (((construction_inventory lca).map Construction.indicators).flatten
    ++ ((transportation_inventory lca).map Transportation.indicators).flatten
    ++ ((waste_stream_inventory lca).map
        (fun p => StreamImpactItem.indicators p.2)).flatten
    ++ ((keys lca._other_items).map
        (fun j => (env.lookupItem j).elim [] ImpactItem.indicators)).flatten).dedup

/-- `LCA.construction_impacts`: seed every indicator with 0, then
`for j in inventory: for m, n in j.impacts.items(): impacts[m] += n`. -/
def construction_impacts (env : Env) (lca : LCA) : List (Ind × ℚ) :=
  foldCat (fun _ mn => mn.2) (fun j => j.impacts)
    (construction_inventory lca) (fromKeys (indicators env lca))

/-- `LCA.transportation_impacts`: same loop with
`impacts[m] += n * hr / j.interval` where `hr = self.life_time`. -/
def transportation_impacts (env : Env) (lca : LCA) : List (Ind × ℚ) :=
  foldCat (fun j mn => mn.2 * lca._life_time / j.interval) (fun j => j.impacts)
    (transportation_inventory lca) (fromKeys (indicators env lca))

/-- `LCA._get_ws_impacts(exclude=None)`: same loop over the waste-stream
inventory with `impacts[m] += n * hr * ws.F_mass`, skipping (`continue`) the
stream that `is exclude`. -/
def _get_ws_impacts (env : Env) (lca : LCA) (exclude : Option WasteStream) :
    List (Ind × ℚ) :=
  (waste_stream_inventory lca).foldl
    (fun impacts p =>
      if exclude = some p.1 then impacts
      else applyInc (fun mn => mn.2 * lca._life_time * p.1.F_mass) impacts p.2.CFs)
    (fromKeys (indicators env lca))

/-- `LCA.waste_stream_impacts`: `self._get_ws_impacts()`. -/
def waste_stream_impacts (env : Env) (lca : LCA) : List (Ind × ℚ) :=
  _get_ws_impacts env lca none

/-- `LCA.other_impacts`: for each stored `(item ID, quantity)` pair,
`impacts[m] += n * k` over the registered item's characterization factors.
A registry miss raises `KeyError` in CPython and a tuple-valued quantity
raises `TypeError` in `n * k`; neither contributes here and the theorems
restrict to states where neither occurs. -/
def other_impacts (env : Env) (lca : LCA) : List (Ind × ℚ) :=
  lca._other_items.foldl
    (fun impacts jk =>
      match env.lookupItem jk.1, jk.2 with
      | some it, PyVal.num q => applyInc (fun mn => mn.2 * q) impacts it.CFs
      | _, _ => impacts)
    (fromKeys (indicators env lca))

/-- `LCA._get_total_impacts(exclude=None)`: indicator-wise sum of the four
category dicts (with the waste-stream dict computed under `exclude`). -/
def _get_total_impacts (env : Env) (lca : LCA) (exclude : Option WasteStream) :
    List (Ind × ℚ) :=
  [construction_impacts env lca, transportation_impacts env lca,
    _get_ws_impacts env lca exclude, other_impacts env lca].foldl
    (fun impacts i => applyInc (fun mn => mn.2) impacts i)
    (fromKeys (indicators env lca))

/-- `LCA.total_impacts`: `self._get_total_impacts()`. -/
def total_impacts (env : Env) (lca : LCA) : List (Ind × ℚ) :=
  _get_total_impacts env lca none

/-- `LCA.get_normalized_impacts(waste_stream)`: assert membership in the
system's streams (CPython `assert` raises `AssertionError`), compute the
totals excluding the stream, then run
`for i in impacts.values(): i /= waste_stream.F_mass` — a loop that rebinds
the local name `i` and leaves the dict values untouched — and return the
dict. -/
def get_normalized_impacts (env : Env) (lca : LCA) (waste_stream : WasteStream) :
    Except Err (List (Ind × ℚ)) :=
  if waste_stream ∈ lca._system.streams then
    Except.ok (_get_total_impacts env lca (some waste_stream))
  else Except.error Err.assertionError

/-- All stored other-item quantities are plain numbers (the only states in
which CPython can evaluate `other_impacts` without a `TypeError`). -/
def numericOthers (lca : LCA) : Bool :=
  lca._other_items.all
    (fun p => match p.2 with | PyVal.num _ => true | PyVal.pair _ _ => false)

/-- A parameter of a Python function: name and whether it has a default. -/
structure Param where
  pname : String
  hasDefault : Bool
deriving DecidableEq, Repr

/-- Modelled from the spec (CPython calling convention): binding `nargs`
positional arguments to a parameter list raises `TypeError` when there are
more arguments than parameters or when a parameter without a default is left
unbound. -/
def bindPositional (params : List Param) (nargs : Nat) : Except Err Unit :=
  if params.length < nargs then Except.error Err.typeError
  else if (params.drop nargs).any (fun p => !p.hasDefault) then
    Except.error Err.typeError
  else Except.ok ()

/-- The non-`self` parameters of the `other_items` property setter
`def other_items(self, item, quantity, unit='')`. -/
def other_items_setter_params : List Param :=
  [{ pname := "item", hasDefault := false },
   { pname := "quantity", hasDefault := false },
   { pname := "unit", hasDefault := true }]

/-- The non-`self` parameters of `add_other_item(self, item, quantity,
unit='')`. -/
def add_other_item_params : List Param :=
  [{ pname := "item", hasDefault := false },
   { pname := "quantity", hasDefault := false },
   { pname := "unit", hasDefault := true }]

/-- Modelled from the spec (CPython semantics): the property assignment
`lca.other_items = x` invokes the setter with the single positional argument
`x`, whatever `x` is. -/
def other_items_assign (_x : PyVal) : Except Err Unit :=
  bindPositional other_items_setter_params 1

/-- Numeric value of a stored quantity (tuple-valued quantities never reach a
multiplication in the theorems below). -/
def pyQ : PyVal → ℚ
  | PyVal.num q => q
  | PyVal.pair _ _ => 0

/-- The spec's reference scenario, external collaborators: no registered
items, no supported conversions. -/
def envRef : Env := { items := [], convert := fun _ _ _ => none }

/-- Reference scenario: the construction-flagged unit, one-time impact
`{GWP: 100}`. -/
def u1 : ProcUnit :=
  { uID := 1, construction := [{ impacts := [("GWP", 100)] }], transportation := [] }

/-- Reference scenario: the transportation-flagged unit, impact `{GWP: 10}`
per 24-hour interval. -/
def u2 : ProcUnit :=
  { uID := 2, construction := [],
    transportation := [{ impacts := [("GWP", 10)], interval := 24 }] }

/-- Reference scenario: the impact-bearing stream, mass flow rate 2 kg/hr,
characterization factor `{GWP: 5}` per kg. -/
def wsRef : WasteStream :=
  { wsID := 1, F_mass := 2, impact_item := some { CFs := [("GWP", 5)] } }

/-- Reference scenario system. -/
def sysRef : System := { units := [u1, u2], streams := [wsRef] }

/-- The LCA state the constructor builds for the reference scenario
(life time 48 hours, no other items). -/
def lcaRef : LCA :=
  { _system := sysRef, _construction_units := [u1], _transportation_units := [u2],
    _lca_waste_streams := [wsRef], _life_time := 48, _other_items := [] }

/-- A stream that does not belong to the reference system. -/
def wsOut : WasteStream := { wsID := 99, F_mass := 1, impact_item := none }

/-- Claim C2 fixture: the first system (one construction unit, one
impact-bearing stream). -/
def sysA : System := { units := [u1], streams := [wsRef] }

/-- Claim C2 fixture: the replacement system, with no units and no streams. -/
def sysB : System := { units := [], streams := [] }

/-- The LCA state the constructor builds on `sysA` (life time 10 hours). -/
def lcaA : LCA :=
  { _system := sysA, _construction_units := [u1], _transportation_units := [],
    _lca_waste_streams := [wsRef], _life_time := 10, _other_items := [] }

/-- Claim C3 fixture: a registry with one item whose functional unit is kWh,
and a conversion service that supports no conversion at all. -/
def env3 : Env :=
  { items := [{ ID := "Electricity", functional_unit := "kWh", CFs := [("GWP", 1)] }],
    convert := fun _ _ _ => none }

/-- Claim C3 fixture: an empty system. -/
def sys0 : System := { units := [], streams := [] }

/-- Claim C9 fixture: the registered electricity item. -/
def itE : ImpactItem :=
  { ID := "Electricity", functional_unit := "kWh", CFs := [("GWP", 1)] }

/-- Claim C9 fixture: registry holding `itE`; the conversion service supports
exactly MJ → kWh, returning 7 on any input quantity. -/
def env9 : Env :=
  { items := [itE],
    convert := fun u fu _ => if u = "MJ" ∧ fu = "kWh" then some 7 else none }

/-- Claim C9 fixture: an LCA state over the empty system. -/
def lca9 : LCA :=
  { _system := sys0, _construction_units := [], _transportation_units := [],
    _lca_waste_streams := [], _life_time := 0, _other_items := [] }

end QSD

deriving instance DecidableEq for Except

namespace QSD

lemma alookup_cons {α : Type} (a1 : Ind) (a2 : α) (t : List (Ind × α)) (k : Ind) :
    alookup ((a1, a2) :: t) k = if a1 = k then some a2 else alookup t k := rfl

lemma keys_cons {α : Type} (a : Ind × α) (t : List (Ind × α)) :
    keys (a :: t) = a.1 :: keys t := rfl

lemma getD_cons (a1 : Ind) (a2 : ℚ) (t : List (Ind × ℚ)) (k : Ind) :
    getD ((a1, a2) :: t) k = if a1 = k then a2 else getD t k := by
  unfold getD
  rw [alookup_cons]
  by_cases h : a1 = k
  · rw [if_pos h, if_pos h]; rfl
  · rw [if_neg h, if_neg h]

lemma mem_keys_iff_isSome {α : Type} (d : List (Ind × α)) (k : Ind) :
    k ∈ keys d ↔ (alookup d k).isSome := by
  induction d with
  | nil => simp [keys, alookup]
  | cons a t ih =>
    obtain ⟨a1, a2⟩ := a
    rw [keys_cons, alookup_cons, List.mem_cons]
    by_cases h : a1 = k
    · rw [if_pos h]
      exact iff_of_true (Or.inl h.symm) (by simp)
    · rw [if_neg h, ← ih]
      constructor
      · rintro (h1 | h1)
        · exact absurd h1.symm h
        · exact h1
      · exact fun h1 => Or.inr h1

lemma getD_not_mem (d : List (Ind × ℚ)) (k : Ind) (h : k ∉ keys d) :
    getD d k = 0 := by
  unfold getD
  cases hh : alookup d k with
  | none => rfl
  | some v =>
    exact absurd ((mem_keys_iff_isSome d k).2 (by simp [hh])) h

lemma keys_addAt (d : List (Ind × ℚ)) (m : Ind) (n : ℚ) :
    keys (addAt d m n) = keys d := by
  induction d with
  | nil => rfl
  | cons a t ih =>
    obtain ⟨a1, a2⟩ := a
    by_cases h : a1 = m <;> simp [addAt, keys, h] <;>
      simpa [keys] using ih

lemma getD_addAt (d : List (Ind × ℚ)) (m : Ind) (n : ℚ) (k : Ind) :
    getD (addAt d m n) k = getD d k + (if k = m ∧ k ∈ keys d then n else 0) := by
  induction d with
  | nil => simp [addAt, getD, alookup, keys]
  | cons a t ih =>
    obtain ⟨a1, a2⟩ := a
    rw [show addAt ((a1, a2) :: t) m n
        = (if a1 = m then (a1, a2 + n) else (a1, a2)) :: addAt t m n from rfl]
    have hcongr : ∀ h1 : ¬a1 = k,
        (k = m ∧ k ∈ keys ((a1, a2) :: t)) ↔ (k = m ∧ k ∈ keys t) := by
      intro h1
      rw [keys_cons, List.mem_cons]
      constructor
      · rintro ⟨hm, h3 | ht⟩
        · exact absurd h3.symm h1
        · exact ⟨hm, ht⟩
      · rintro ⟨hm, ht⟩
        exact ⟨hm, Or.inr ht⟩
    by_cases h2 : a1 = m
    · rw [if_pos h2, getD_cons, getD_cons]
      by_cases h1 : a1 = k
      · rw [if_pos h1, if_pos h1,
          if_pos (show k = m ∧ k ∈ keys ((a1, a2) :: t) from
            ⟨h1.symm.trans h2, by rw [keys_cons, List.mem_cons]; exact Or.inl h1.symm⟩)]
      · rw [if_neg h1, if_neg h1, ih, if_congr (hcongr h1) rfl rfl]
    · rw [if_neg h2, getD_cons, getD_cons]
      by_cases h1 : a1 = k
      · rw [if_pos h1, if_pos h1,
          if_neg (show ¬(k = m ∧ k ∈ keys ((a1, a2) :: t)) from
            fun hc => h2 (h1.trans hc.1)), add_zero]
      · rw [if_neg h1, if_neg h1, ih, if_congr (hcongr h1) rfl rfl]

lemma keys_applyInc (g : Ind × ℚ → ℚ) (l : List (Ind × ℚ)) :
    ∀ d : List (Ind × ℚ), keys (applyInc g d l) = keys d := by
  induction l with
  | nil => intro d; rfl
  | cons mn t ih =>
    intro d
    show keys (applyInc g (addAt d mn.1 (g mn)) t) = keys d
    rw [ih, keys_addAt]

lemma getD_applyInc (g : Ind × ℚ → ℚ) (l : List (Ind × ℚ)) (k : Ind) :
    ∀ d : List (Ind × ℚ),
      getD (applyInc g d l) k
        = getD d k + (if k ∈ keys d then contribSum g l k else 0) := by
  induction l with
  | nil =>
    intro d
    by_cases h : k ∈ keys d
    · rw [if_pos h, show contribSum g [] k = 0 from rfl, add_zero]; rfl
    · rw [if_neg h, add_zero]; rfl
  | cons mn t ih =>
    intro d
    show getD (applyInc g (addAt d mn.1 (g mn)) t) k = _
    rw [ih, keys_addAt, getD_addAt,
      show contribSum g (mn :: t) k
        = (if mn.1 = k then g mn else 0) + contribSum g t k from rfl]
    by_cases h : k ∈ keys d
    · rw [if_pos h, if_pos h]
      by_cases h2 : k = mn.1
      · rw [if_pos ⟨h2, h⟩, if_pos h2.symm]; ring
      · rw [if_neg (fun hc => h2 hc.1), if_neg (fun hc => h2 hc.symm)]; ring
    · rw [if_neg h, if_neg h, if_neg (fun hc => h hc.2)]; ring

lemma keys_foldCat {β : Type} (g : β → Ind × ℚ → ℚ) (es : β → List (Ind × ℚ))
    (inv : List β) : ∀ d : List (Ind × ℚ), keys (foldCat g es inv d) = keys d := by
  induction inv with
  | nil => intro d; rfl
  | cons j t ih =>
    intro d
    show keys (foldCat g es t (applyInc (g j) d (es j))) = keys d
    rw [ih, keys_applyInc]

lemma getD_foldCat {β : Type} (g : β → Ind × ℚ → ℚ) (es : β → List (Ind × ℚ))
    (inv : List β) (k : Ind) :
    ∀ d : List (Ind × ℚ),
      getD (foldCat g es inv d) k
        = getD d k
          + (if k ∈ keys d then
              (inv.map (fun j => contribSum (g j) (es j) k)).sum else 0) := by
  induction inv with
  | nil => intro d; by_cases h : k ∈ keys d <;> simp [foldCat, h]
  | cons j t ih =>
    intro d
    show getD (foldCat g es t (applyInc (g j) d (es j))) k = _
    rw [ih, keys_applyInc, getD_applyInc]
    by_cases h : k ∈ keys d <;> simp [h, add_assoc]

lemma keys_fromKeys (ks : List Ind) : keys (fromKeys ks) = ks := by
  induction ks with
  | nil => rfl
  | cons a t ih => simp [fromKeys, keys] at *; exact ih

lemma getD_fromKeys (ks : List Ind) (k : Ind) : getD (fromKeys ks) k = 0 := by
  induction ks with
  | nil => rfl
  | cons a t ih =>
    rw [show fromKeys (a :: t) = (a, (0 : ℚ)) :: fromKeys t from rfl, getD_cons]
    by_cases h : a = k
    · rw [if_pos h]
    · rw [if_neg h, ih]

lemma contribSum_not_mem (g : Ind × ℚ → ℚ) (l : List (Ind × ℚ)) (k : Ind)
    (h : k ∉ keys l) : contribSum g l k = 0 := by
  induction l with
  | nil => rfl
  | cons mn t ih =>
    rw [keys_cons, List.mem_cons] at h
    push_neg at h
    rw [show contribSum g (mn :: t) k
        = (if mn.1 = k then g mn else 0) + contribSum g t k from rfl,
      if_neg (fun hc => h.1 hc.symm), ih h.2, add_zero]

lemma cfSum_not_mem (l : List (Ind × ℚ)) (k : Ind) (h : k ∉ keys l) :
    cfSum l k = 0 := contribSum_not_mem _ l k h

lemma cfSum_eq_getD (d : List (Ind × ℚ)) (k : Ind) (h : (keys d).Nodup) :
    cfSum d k = getD d k := by
  induction d with
  | nil => rfl
  | cons a t ih =>
    obtain ⟨a1, a2⟩ := a
    rw [keys_cons, List.nodup_cons] at h
    rw [show cfSum ((a1, a2) :: t) k
        = (if a1 = k then a2 else 0) + cfSum t k from rfl, getD_cons]
    by_cases h1 : a1 = k
    · rw [if_pos h1, if_pos h1, cfSum_not_mem t k (h1 ▸ h.1), add_zero]
    · rw [if_neg h1, if_neg h1, ih h.2, zero_add]

lemma foldl_fun_ext {σ β : Type} (f f' : σ → β → σ)
    (h : ∀ d j, f d j = f' d j) (l : List β) (d : σ) :
    l.foldl f d = l.foldl f' d := by
  have hf : f = f' := funext (fun d => funext (fun j => h d j))
  rw [hf]

lemma ws_impacts_eq_foldCat (env : Env) (lca : LCA) (exclude : Option WasteStream) :
    _get_ws_impacts env lca exclude
      = foldCat (fun p mn => mn.2 * lca._life_time * p.1.F_mass)
          (fun p => if exclude = some p.1 then [] else p.2.CFs)
          (waste_stream_inventory lca) (fromKeys (indicators env lca)) := by
  unfold _get_ws_impacts foldCat
  apply foldl_fun_ext
  intro d p
  show (if exclude = some p.1 then d
        else applyInc (fun mn => mn.2 * lca._life_time * p.1.F_mass) d p.2.CFs)
      = applyInc (fun mn => mn.2 * lca._life_time * p.1.F_mass) d
          (if exclude = some p.1 then [] else p.2.CFs)
  by_cases h : exclude = some p.1
  · rw [if_pos h, if_pos h]; rfl
  · rw [if_neg h, if_neg h]

lemma other_impacts_eq_foldCat (env : Env) (lca : LCA) :
    other_impacts env lca
      = foldCat (fun jk mn => mn.2 * pyQ jk.2)
          (fun jk =>
            match env.lookupItem jk.1, jk.2 with
            | some it, PyVal.num _ => it.CFs
            | _, _ => [])
          lca._other_items (fromKeys (indicators env lca)) := by
  unfold other_impacts foldCat
  apply foldl_fun_ext
  intro d jk
  obtain ⟨j, v⟩ := jk
  show (match env.lookupItem j, v with
        | some it, PyVal.num q => applyInc (fun mn => mn.2 * q) d it.CFs
        | _, _ => d)
      = applyInc (fun mn => mn.2 * pyQ v) d
          (match env.lookupItem j, v with
           | some it, PyVal.num _ => it.CFs
           | _, _ => [])
  cases env.lookupItem j with
  | none => cases v with
    | num q => rfl
    | pair q u => rfl
  | some it => cases v with
    | num q => rfl
    | pair q u => rfl

lemma total_eq_foldCat (env : Env) (lca : LCA) (exclude : Option WasteStream) :
    _get_total_impacts env lca exclude
      = foldCat (fun _ mn => mn.2) (fun i => i)
          [construction_impacts env lca, transportation_impacts env lca,
            _get_ws_impacts env lca exclude, other_impacts env lca]
          (fromKeys (indicators env lca)) := rfl

lemma nodup_indicators (env : Env) (lca : LCA) : (indicators env lca).Nodup :=
  List.nodup_dedup _

lemma keys_construction_impacts (env : Env) (lca : LCA) :
    keys (construction_impacts env lca) = indicators env lca := by
  unfold construction_impacts
  rw [keys_foldCat, keys_fromKeys]

lemma keys_transportation_impacts (env : Env) (lca : LCA) :
    keys (transportation_impacts env lca) = indicators env lca := by
  unfold transportation_impacts
  rw [keys_foldCat, keys_fromKeys]

lemma keys_ws_impacts (env : Env) (lca : LCA) (exclude : Option WasteStream) :
    keys (_get_ws_impacts env lca exclude) = indicators env lca := by
  rw [ws_impacts_eq_foldCat, keys_foldCat, keys_fromKeys]

lemma keys_other_impacts (env : Env) (lca : LCA) :
    keys (other_impacts env lca) = indicators env lca := by
  rw [other_impacts_eq_foldCat, keys_foldCat, keys_fromKeys]

lemma keys_total_impacts (env : Env) (lca : LCA) (exclude : Option WasteStream) :
    keys (_get_total_impacts env lca exclude) = indicators env lca := by
  rw [total_eq_foldCat, keys_foldCat, keys_fromKeys]

lemma contribSum_mul_right (c : ℚ) (l : List (Ind × ℚ)) (k : Ind) :
    contribSum (fun mn => mn.2 * c) l k = cfSum l k * c := by
  induction l with
  | nil => show (0 : ℚ) = 0 * c; rw [zero_mul]
  | cons mn t ih =>
    show (if mn.1 = k then mn.2 * c else 0) + contribSum (fun mn => mn.2 * c) t k
      = ((if mn.1 = k then mn.2 else 0) + cfSum t k) * c
    rw [ih, add_mul]
    by_cases h : mn.1 = k
    · rw [if_pos h, if_pos h]
    · rw [if_neg h, if_neg h, zero_mul]

lemma list_sum_map_mul_left {β : Type} (l : List β) (f : β → ℚ) (c : ℚ) :
    (l.map (fun j => c * f j)).sum = c * (l.map f).sum := by
  induction l with
  | nil => rw [List.map_nil, List.map_nil, List.sum_nil, mul_zero]
  | cons a t ih =>
    rw [List.map_cons, List.map_cons, List.sum_cons, List.sum_cons, ih, mul_add]

lemma getD_construction_impacts (env : Env) (lca : LCA) (k : Ind)
    (hk : k ∈ indicators env lca) :
    getD (construction_impacts env lca) k
      = ((construction_inventory lca).map (fun j => cfSum j.impacts k)).sum := by
  unfold construction_impacts
  rw [getD_foldCat, getD_fromKeys, keys_fromKeys, if_pos hk, zero_add]
  rfl

lemma getD_transportation_impacts (env : Env) (lca : LCA) (k : Ind)
    (hk : k ∈ indicators env lca) :
    getD (transportation_impacts env lca) k
      = ((transportation_inventory lca).map
          (fun j => cfSum j.impacts k * lca._life_time / j.interval)).sum := by
  unfold transportation_impacts
  rw [getD_foldCat, getD_fromKeys, keys_fromKeys, if_pos hk, zero_add]
  have hfun : (fun j : Transportation =>
      contribSum (fun mn => mn.2 * lca._life_time / j.interval) j.impacts k)
      = fun j => cfSum j.impacts k * lca._life_time / j.interval := by
    funext j
    rw [show (fun mn : Ind × ℚ => mn.2 * lca._life_time / j.interval)
        = fun mn => mn.2 * (lca._life_time / j.interval) from
        funext (fun mn => mul_div_assoc _ _ _),
      contribSum_mul_right, mul_div_assoc]
  rw [hfun]

lemma getD_ws_impacts_none (env : Env) (lca : LCA) (k : Ind)
    (hk : k ∈ indicators env lca) :
    getD (waste_stream_impacts env lca) k
      = ((waste_stream_inventory lca).map
          (fun p => cfSum p.2.CFs k * lca._life_time * p.1.F_mass)).sum := by
  unfold waste_stream_impacts
  rw [ws_impacts_eq_foldCat, getD_foldCat, getD_fromKeys, keys_fromKeys,
    if_pos hk, zero_add]
  have hfun : (fun p : WasteStream × StreamImpactItem =>
      contribSum (fun mn => mn.2 * lca._life_time * p.1.F_mass)
        (if (none : Option WasteStream) = some p.1 then [] else p.2.CFs) k)
      = fun p => cfSum p.2.CFs k * lca._life_time * p.1.F_mass := by
    funext p
    rw [if_neg (fun hc => Option.noConfusion hc),
      show (fun mn : Ind × ℚ => mn.2 * lca._life_time * p.1.F_mass)
        = fun mn => mn.2 * (lca._life_time * p.1.F_mass) from
        funext (fun mn => mul_assoc _ _ _),
      contribSum_mul_right, mul_assoc]
  rw [hfun]

lemma contribSum_snd_eq_getD (d : List (Ind × ℚ)) (k : Ind)
    (h : (keys d).Nodup) :
    contribSum (fun mn => mn.2) d k = getD d k := cfSum_eq_getD d k h

lemma eq_singleton_of_keys (d : List (Ind × ℚ)) (k : Ind) (h : keys d = [k]) :
    d = [(k, getD d k)] := by
  cases d with
  | nil => simp [keys] at h
  | cons a t =>
    obtain ⟨a1, a2⟩ := a
    rw [keys_cons] at h
    injection h with h1 h2
    have ht : t = [] := by
      cases t with
      | nil => rfl
      | cons b t2 => rw [keys_cons] at h2; cases h2
    subst ht
    subst h1
    rw [getD_cons, if_pos rfl]

lemma getD_total_impacts (env : Env) (lca : LCA) (exclude : Option WasteStream)
    (k : Ind) (hk : k ∈ indicators env lca) :
    getD (_get_total_impacts env lca exclude) k
      = getD (construction_impacts env lca) k
        + getD (transportation_impacts env lca) k
        + getD (_get_ws_impacts env lca exclude) k
        + getD (other_impacts env lca) k := by
  rw [total_eq_foldCat, getD_foldCat, getD_fromKeys, keys_fromKeys, if_pos hk,
    zero_add]
  simp only [List.map_cons, List.map_nil, List.sum_cons, List.sum_nil]
  rw [contribSum_snd_eq_getD _ _ (by rw [keys_construction_impacts]; exact nodup_indicators env lca),
    contribSum_snd_eq_getD _ _ (by rw [keys_transportation_impacts]; exact nodup_indicators env lca),
    contribSum_snd_eq_getD _ _ (by rw [keys_ws_impacts]; exact nodup_indicators env lca),
    contribSum_snd_eq_getD _ _ (by rw [keys_other_impacts]; exact nodup_indicators env lca)]
  ring

lemma indicators_lcaRef : indicators envRef lcaRef = ["GWP"] := by decide

lemma mem_indicators_lcaRef : "GWP" ∈ indicators envRef lcaRef := by decide

lemma construction_impacts_lcaRef :
    construction_impacts envRef lcaRef = [("GWP", 100)] := by
  apply Eq.trans (eq_singleton_of_keys _ "GWP"
    (by rw [keys_construction_impacts, indicators_lcaRef]))
  rw [getD_construction_impacts envRef lcaRef "GWP" mem_indicators_lcaRef]
  norm_num [construction_inventory, lcaRef, u1, u2, cfSum, contribSum]

lemma transportation_impacts_lcaRef :
    transportation_impacts envRef lcaRef = [("GWP", 20)] := by
  apply Eq.trans (eq_singleton_of_keys _ "GWP"
    (by rw [keys_transportation_impacts, indicators_lcaRef]))
  rw [getD_transportation_impacts envRef lcaRef "GWP" mem_indicators_lcaRef]
  norm_num [transportation_inventory, lcaRef, u1, u2, cfSum, contribSum]

lemma waste_stream_impacts_lcaRef :
    waste_stream_impacts envRef lcaRef = [("GWP", 480)] := by
  apply Eq.trans (eq_singleton_of_keys _ "GWP"
    (by rw [show keys (waste_stream_impacts envRef lcaRef)
        = keys (_get_ws_impacts envRef lcaRef none) from rfl,
      keys_ws_impacts, indicators_lcaRef]))
  rw [getD_ws_impacts_none envRef lcaRef "GWP" mem_indicators_lcaRef]
  norm_num [waste_stream_inventory, lcaRef, wsRef, cfSum, contribSum,
    List.filterMap_cons, List.filterMap_nil]

lemma other_impacts_lcaRef : other_impacts envRef lcaRef = [("GWP", 0)] := by decide

lemma total_impacts_lcaRef : total_impacts envRef lcaRef = [("GWP", 600)] := by
  apply Eq.trans (eq_singleton_of_keys _ "GWP"
    (by rw [show keys (total_impacts envRef lcaRef)
        = keys (_get_total_impacts envRef lcaRef none) from rfl,
      keys_total_impacts, indicators_lcaRef]))
  rw [show getD (total_impacts envRef lcaRef) "GWP"
      = getD (_get_total_impacts envRef lcaRef none) "GWP" from rfl,
    getD_total_impacts envRef lcaRef none "GWP" mem_indicators_lcaRef,
    construction_impacts_lcaRef, transportation_impacts_lcaRef,
    show _get_ws_impacts envRef lcaRef none = waste_stream_impacts envRef lcaRef from rfl,
    waste_stream_impacts_lcaRef, other_impacts_lcaRef]
  norm_num [getD, alookup]

lemma ws_impacts_excluded_lcaRef :
    _get_ws_impacts envRef lcaRef (some wsRef) = [("GWP", 0)] := by decide

lemma total_excluded_lcaRef :
    _get_total_impacts envRef lcaRef (some wsRef) = [("GWP", 120)] := by
  apply Eq.trans (eq_singleton_of_keys _ "GWP"
    (by rw [keys_total_impacts, indicators_lcaRef]))
  rw [getD_total_impacts envRef lcaRef (some wsRef) "GWP" mem_indicators_lcaRef,
    construction_impacts_lcaRef, transportation_impacts_lcaRef,
    ws_impacts_excluded_lcaRef, other_impacts_lcaRef]
  norm_num [getD, alookup]

lemma getD_transportation_double (env : Env) (lca : LCA) (k : Ind)
    (hk : k ∈ indicators env lca) :
    getD (transportation_impacts env { lca with _life_time := 2 * lca._life_time }) k
      = 2 * getD (transportation_impacts env lca) k := by
  rw [getD_transportation_impacts env { lca with _life_time := 2 * lca._life_time } k hk,
    getD_transportation_impacts env lca k hk]
  show ((transportation_inventory lca).map
      (fun j => cfSum j.impacts k * (2 * lca._life_time) / j.interval)).sum
    = 2 * ((transportation_inventory lca).map
      (fun j => cfSum j.impacts k * lca._life_time / j.interval)).sum
  rw [show (fun j : Transportation =>
        cfSum j.impacts k * (2 * lca._life_time) / j.interval)
      = fun j => 2 * (cfSum j.impacts k * lca._life_time / j.interval) from
      funext (fun j => by ring),
    list_sum_map_mul_left]

lemma getD_ws_double (env : Env) (lca : LCA) (k : Ind)
    (hk : k ∈ indicators env lca) :
    getD (waste_stream_impacts env { lca with _life_time := 2 * lca._life_time }) k
      = 2 * getD (waste_stream_impacts env lca) k := by
  rw [getD_ws_impacts_none env { lca with _life_time := 2 * lca._life_time } k hk,
    getD_ws_impacts_none env lca k hk]
  show ((waste_stream_inventory lca).map
      (fun p => cfSum p.2.CFs k * (2 * lca._life_time) * p.1.F_mass)).sum
    = 2 * ((waste_stream_inventory lca).map
      (fun p => cfSum p.2.CFs k * lca._life_time * p.1.F_mass)).sum
  rw [show (fun p : WasteStream × StreamImpactItem =>
        cfSum p.2.CFs k * (2 * lca._life_time) * p.1.F_mass)
      = fun p => 2 * (cfSum p.2.CFs k * lca._life_time * p.1.F_mass) from
      funext (fun p => by ring),
    list_sum_map_mul_left]

lemma mem_option_elim_indicators (o : Option ImpactItem) (k : Ind) :
    k ∈ o.elim [] ImpactItem.indicators
      ↔ ∃ it, o = some it ∧ k ∈ ImpactItem.indicators it := by
  cases o with
  | none => simp
  | some it => simp

lemma mem_flatten_map {β : Type} (f : β → List Ind) (l : List β) (k : Ind) :
    k ∈ (l.map f).flatten ↔ ∃ x ∈ l, k ∈ f x := by
  rw [List.mem_flatten]
  constructor
  · rintro ⟨li, hli, hk⟩
    obtain ⟨x, hx, rfl⟩ := List.mem_map.mp hli
    exact ⟨x, hx, hk⟩
  · rintro ⟨x, hx, hk⟩
    exact ⟨f x, List.mem_map.mpr ⟨x, hx, rfl⟩, hk⟩

lemma mem_indicators_iff (env : Env) (lca : LCA) (k : Ind) :
    k ∈ indicators env lca ↔
      ((∃ c ∈ construction_inventory lca, k ∈ Construction.indicators c) ∨
       (∃ t ∈ transportation_inventory lca, k ∈ Transportation.indicators t) ∨
       (∃ p ∈ waste_stream_inventory lca, k ∈ StreamImpactItem.indicators p.2) ∨
       (∃ jq ∈ lca._other_items, ∃ it,
          env.lookupItem jq.1 = some it ∧ k ∈ ImpactItem.indicators it)) := by
  unfold indicators
  rw [List.mem_dedup]
  simp only [List.mem_append, mem_flatten_map]
  constructor
  · rintro (((h | h) | h) | h)
    · exact Or.inl h
    · exact Or.inr (Or.inl h)
    · exact Or.inr (Or.inr (Or.inl h))
    · obtain ⟨j, hj, hk⟩ := h
      obtain ⟨jq, hjq, rfl⟩ := List.mem_map.mp hj
      obtain ⟨it, hit, hk2⟩ := (mem_option_elim_indicators _ _).mp hk
      exact Or.inr (Or.inr (Or.inr ⟨jq, hjq, it, hit, hk2⟩))
  · rintro (h | h | h | h)
    · exact Or.inl (Or.inl (Or.inl h))
    · exact Or.inl (Or.inl (Or.inr h))
    · exact Or.inl (Or.inr h)
    · obtain ⟨jq, hjq, it, hit, hk2⟩ := h
      refine Or.inr ⟨jq.1, List.mem_map.mpr ⟨jq, hjq, rfl⟩, ?_⟩
      exact (mem_option_elim_indicators _ _).mpr ⟨it, hit, hk2⟩

lemma keys_waste_stream_impacts (env : Env) (lca : LCA) :
    keys (waste_stream_impacts env lca) = indicators env lca :=
  keys_ws_impacts env lca none

lemma add_other_item_congr (env : Env) (lca : LCA) (i1 i2 : ItemArg)
    (h : resolveItem env i1 = resolveItem env i2) (qv : PyVal) (u : String) :
    add_other_item env lca i1 qv u = add_other_item env lca i2 qv u := by
  unfold add_other_item
  rw [h]

lemma resolveItem_str (env : Env) (s : String) :
    resolveItem env (ItemArg.str s)
      = match env.lookupItem s with
        | some it => Except.ok it
        | none => Except.error Err.keyError := rfl

lemma add_other_item_resolve_error (env : Env) (lca : LCA) (i : ItemArg)
    (e : Err) (h : resolveItem env i = Except.error e) (qv : PyVal) (u : String) :
    add_other_item env lca i qv u = Except.error e := by
  unfold add_other_item
  rw [h]

lemma alookup_setKey_self {α : Type} (d : List (Ind × α)) (k : Ind) (v : α) :
    alookup (setKey d k v) k = some v := by
  induction d with
  | nil => show alookup [(k, v)] k = some v; rw [alookup_cons, if_pos rfl]
  | cons a t ih =>
    obtain ⟨a1, a2⟩ := a
    show alookup (if a1 = k then (a1, v) :: t else (a1, a2) :: setKey t k v) k
      = some v
    by_cases h : a1 = k
    · rw [if_pos h, alookup_cons, if_pos h]
    · rw [if_neg h, alookup_cons, if_neg h, ih]

/-- C1 (code bug): the claim — and the method's own docstring — say
`get_normalized_impacts` divides every indicator total (excluding the
stream's own contribution) by the stream's mass flow rate, giving
(600 − 480)/2 = 60 in the reference scenario.  The code's loop
`for i in impacts.values(): i /= waste_stream.F_mass` rebinds the local name
`i` and never writes the dict, so the returned mapping is the un-divided
excluded total, 120. -/
theorem C1_normalization_not_divided :
    get_normalized_impacts envRef lcaRef wsRef = Except.ok [("GWP", 120)] ∧
    get_normalized_impacts envRef lcaRef wsRef ≠ Except.ok [("GWP", 60)] ∧
    _get_total_impacts envRef lcaRef (some wsRef) = [("GWP", 120)] ∧
    wsRef.F_mass = 2 := by
  have hmem : wsRef ∈ lcaRef._system.streams := by decide
  have h1 : get_normalized_impacts envRef lcaRef wsRef
      = Except.ok (_get_total_impacts envRef lcaRef (some wsRef)) := by
    unfold get_normalized_impacts
    rw [if_pos hmem]
  refine ⟨?_, ?_, total_excluded_lcaRef, rfl⟩
  · rw [h1, total_excluded_lcaRef]
  · rw [h1, total_excluded_lcaRef]
    intro hc
    simp only [Except.ok.injEq, List.cons.injEq, Prod.mk.injEq] at hc
    norm_num at hc

/-- C2 (code bug): the constructor derives the cached sets correctly, but
`_update_system` only ever ADDS to them; after replacing the system through
the `system` setter, the old system's construction unit and waste stream are
still in the cached sets even though the new system contains neither. -/
theorem C2_stale_cached_sets :
    LCA.init envRef sysA 10 "hr" [] = Except.ok lcaA ∧
    (set_system lcaA sysB)._system = sysB ∧
    u1 ∈ (set_system lcaA sysB)._construction_units ∧
    u1 ∉ sysB.units ∧
    wsRef ∈ (set_system lcaA sysB)._lca_waste_streams ∧
    wsRef ∉ sysB.streams := by decide

/-- C3 (code bug): for a `(quantity, unit)` keyword pair with an
un-convertible unit, `add_other_item` raises the conversion `ValueError`,
but the constructor's bare `except:` swallows it and falls back to storing
the raw tuple — construction succeeds and the unconverted quantity is
silently stored, instead of the error propagating to the caller. -/
theorem C3_conversion_error_swallowed :
    env3.convert "badunit" "kWh" 5 = none ∧
    add_other_item env3 lca9 (ItemArg.str "Electricity") (PyVal.num 5) "badunit"
      = Except.error Err.valueError ∧
    (LCA.init env3 sys0 1 "hr" [("Electricity", PyVal.pair 5 "badunit")]).map
        LCA._other_items
      = Except.ok [("Electricity", PyVal.pair 5 "badunit")] := by decide

/-- C4: for every LCA state whose stored other-item quantities are plain
numbers (the only states whose `other_impacts` CPython can evaluate at all)
and every indicator in the indicator set, the total impact equals the sum of
the construction, transportation, waste-stream and other impacts — exactly,
floats being modelled as rationals. -/
theorem C4_total_is_sum_of_parts (env : Env) (lca : LCA) (k : Ind)
    (hk : k ∈ indicators env lca) (_hnum : numericOthers lca = true) :
    getD (total_impacts env lca) k
      = getD (construction_impacts env lca) k
        + getD (transportation_impacts env lca) k
        + getD (waste_stream_impacts env lca) k
        + getD (other_impacts env lca) k :=
  getD_total_impacts env lca none k hk

/-- C4 witness: the reference scenario at GWP: 600 = 100 + 20 + 480 + 0. -/
theorem C4_total_is_sum_of_parts_witness :
    ("GWP" ∈ indicators envRef lcaRef) ∧ (numericOthers lcaRef = true) ∧
    getD (total_impacts envRef lcaRef) "GWP"
      = getD (construction_impacts envRef lcaRef) "GWP"
        + getD (transportation_impacts envRef lcaRef) "GWP"
        + getD (waste_stream_impacts envRef lcaRef) "GWP"
        + getD (other_impacts envRef lcaRef) "GWP" :=
  ⟨by decide, by decide,
    C4_total_is_sum_of_parts envRef lcaRef "GWP" (by decide) (by decide)⟩

/-- C5: each category applies its scaling rule — construction entries are
summed unscaled, each transportation activity contributes its raw impact
scaled by life_time / interval, each impact-bearing stream contributes its
characterization factor scaled by life_time × mass flow rate — and on the
spec's reference scenario (built by the constructor) the category impacts
are 100, 20, 480 with total 600. -/
theorem C5_scaling_rules_and_scenario (env : Env) (lca : LCA) (k : Ind)
    (hk : k ∈ indicators env lca) :
    (getD (construction_impacts env lca) k
        = ((construction_inventory lca).map (fun j => cfSum j.impacts k)).sum ∧
      getD (transportation_impacts env lca) k
        = ((transportation_inventory lca).map
            (fun j => cfSum j.impacts k * lca._life_time / j.interval)).sum ∧
      getD (waste_stream_impacts env lca) k
        = ((waste_stream_inventory lca).map
            (fun p => cfSum p.2.CFs k * lca._life_time * p.1.F_mass)).sum) ∧
    (LCA.init envRef sysRef 48 "hr" [] = Except.ok lcaRef ∧
      construction_impacts envRef lcaRef = [("GWP", 100)] ∧
      transportation_impacts envRef lcaRef = [("GWP", 20)] ∧
      waste_stream_impacts envRef lcaRef = [("GWP", 480)] ∧
      total_impacts envRef lcaRef = [("GWP", 600)]) :=
  ⟨⟨getD_construction_impacts env lca k hk,
    getD_transportation_impacts env lca k hk,
    getD_ws_impacts_none env lca k hk⟩,
   by decide, construction_impacts_lcaRef, transportation_impacts_lcaRef,
   waste_stream_impacts_lcaRef, total_impacts_lcaRef⟩

/-- C5 witness: the scaling formulas instantiated at the reference scenario
and the GWP indicator. -/
theorem C5_scaling_rules_and_scenario_witness :
    ("GWP" ∈ indicators envRef lcaRef) ∧
    ((getD (construction_impacts envRef lcaRef) "GWP"
        = ((construction_inventory lcaRef).map
            (fun j => cfSum j.impacts "GWP")).sum ∧
      getD (transportation_impacts envRef lcaRef) "GWP"
        = ((transportation_inventory lcaRef).map
            (fun j => cfSum j.impacts "GWP" * lcaRef._life_time / j.interval)).sum ∧
      getD (waste_stream_impacts envRef lcaRef) "GWP"
        = ((waste_stream_inventory lcaRef).map
            (fun p => cfSum p.2.CFs "GWP" * lcaRef._life_time * p.1.F_mass)).sum) ∧
    (LCA.init envRef sysRef 48 "hr" [] = Except.ok lcaRef ∧
      construction_impacts envRef lcaRef = [("GWP", 100)] ∧
      transportation_impacts envRef lcaRef = [("GWP", 20)] ∧
      waste_stream_impacts envRef lcaRef = [("GWP", 480)] ∧
      total_impacts envRef lcaRef = [("GWP", 600)])) :=
  ⟨by decide, C5_scaling_rules_and_scenario envRef lcaRef "GWP" (by decide)⟩

/-- C6: the indicator set equals exactly the union of the indicator sets of
the construction, transportation and waste-stream inventories and of the
registered other items, and every impact mapping — per category, the
waste-stream mapping under any exclusion, and the total — has exactly the
indicator set as its key set, so an indicator with no contributing entity
appears in none of them. -/
theorem C6_indicator_closure (env : Env) (lca : LCA) (k : Ind)
    (ex : Option WasteStream) :
    (k ∈ indicators env lca ↔
      ((∃ c ∈ construction_inventory lca, k ∈ Construction.indicators c) ∨
       (∃ t ∈ transportation_inventory lca, k ∈ Transportation.indicators t) ∨
       (∃ p ∈ waste_stream_inventory lca, k ∈ StreamImpactItem.indicators p.2) ∨
       (∃ jq ∈ lca._other_items, ∃ it,
          env.lookupItem jq.1 = some it ∧ k ∈ ImpactItem.indicators it))) ∧
    keys (construction_impacts env lca) = indicators env lca ∧
    keys (transportation_impacts env lca) = indicators env lca ∧
    keys (waste_stream_impacts env lca) = indicators env lca ∧
    keys (other_impacts env lca) = indicators env lca ∧
    keys (_get_ws_impacts env lca ex) = indicators env lca ∧
    keys (_get_total_impacts env lca ex) = indicators env lca ∧
    keys (total_impacts env lca) = indicators env lca :=
  ⟨mem_indicators_iff env lca k,
   keys_construction_impacts env lca,
   keys_transportation_impacts env lca,
   keys_ws_impacts env lca none,
   keys_other_impacts env lca,
   keys_ws_impacts env lca ex,
   keys_total_impacts env lca ex,
   keys_total_impacts env lca none⟩

/-- C7 counterexample: for a stream outside the linked system the code
raises `AssertionError` (a Python `assert`), which is not of the
`ValueError` class the claim names. -/
theorem C7_counterexample :
    wsOut ∉ lcaRef._system.streams ∧
    get_normalized_impacts envRef lcaRef wsOut
      = Except.error Err.assertionError ∧
    Err.isValueError Err.assertionError = false := by
  refine ⟨by decide, ?_, rfl⟩
  unfold get_normalized_impacts
  rw [if_neg (by decide : wsOut ∉ lcaRef._system.streams)]

/-- C7 amended: for every stream not among the linked system's streams,
`get_normalized_impacts` fails with an `AssertionError` — a precondition
failure, but not a `ValueError`-class error — and the LCA state is unchanged
(in the source the operation only reads state and returns a fresh dict; it
is modelled here as a pure function of the state). -/
theorem C7_assertion_on_foreign_stream (env : Env) (lca : LCA)
    (ws : WasteStream) (h : ws ∉ lca._system.streams) :
    get_normalized_impacts env lca ws = Except.error Err.assertionError ∧
    Err.isValueError Err.assertionError = false := by
  refine ⟨?_, rfl⟩
  unfold get_normalized_impacts
  rw [if_neg h]

/-- C7 witness: the amended theorem applied to the foreign stream `wsOut`. -/
theorem C7_assertion_on_foreign_stream_witness :
    wsOut ∉ lcaRef._system.streams ∧
    (get_normalized_impacts envRef lcaRef wsOut
        = Except.error Err.assertionError ∧
      Err.isValueError Err.assertionError = false) :=
  ⟨by decide, C7_assertion_on_foreign_stream envRef lcaRef wsOut (by decide)⟩

/-- C8: with the system, inventories, intervals and raw impacts fixed,
doubling the life time (what the `life_time` setter stores for the doubled
hour value) exactly doubles every transportation-impact and every
waste-stream-impact value (same key sets), while the construction-impact
mapping is unchanged. -/
theorem C8_life_time_linearity (env : Env) (lca : LCA) (k : Ind) :
    _update_life_time env lca (2 * lca._life_time) "hr"
        = Except.ok { lca with _life_time := 2 * lca._life_time } ∧
    keys (transportation_impacts env { lca with _life_time := 2 * lca._life_time })
        = keys (transportation_impacts env lca) ∧
    getD (transportation_impacts env { lca with _life_time := 2 * lca._life_time }) k
        = 2 * getD (transportation_impacts env lca) k ∧
    keys (waste_stream_impacts env { lca with _life_time := 2 * lca._life_time })
        = keys (waste_stream_impacts env lca) ∧
    getD (waste_stream_impacts env { lca with _life_time := 2 * lca._life_time }) k
        = 2 * getD (waste_stream_impacts env lca) k ∧
    construction_impacts env { lca with _life_time := 2 * lca._life_time }
        = construction_impacts env lca := by
  refine ⟨?_, ?_, ?_, ?_, ?_, rfl⟩
  · unfold _update_life_time
    rw [if_pos (Or.inr rfl)]
  · rw [keys_transportation_impacts, keys_transportation_impacts]
    exact rfl
  · by_cases hk : k ∈ indicators env lca
    · exact getD_transportation_double env lca k hk
    · rw [getD_not_mem _ _ (by rw [keys_transportation_impacts]; exact hk),
        getD_not_mem _ _ (by rw [keys_transportation_impacts]; exact hk),
        mul_zero]
  · rw [keys_waste_stream_impacts, keys_waste_stream_impacts]
    exact rfl
  · by_cases hk : k ∈ indicators env lca
    · exact getD_ws_double env lca k hk
    · rw [getD_not_mem _ _ (by rw [keys_waste_stream_impacts]; exact hk),
        getD_not_mem _ _ (by rw [keys_waste_stream_impacts]; exact hk),
        mul_zero]

/-- C9: `add_other_item` resolves a string through the registry (behaving as
with the direct item reference) and fails with `KeyError` — a `LookupError`
subclass — on an unregistered ID; an empty or matching unit stores the
quantity bit-identically; a differing unit converts, storing the converted
value on success and failing with the conversion `ValueError` when the pair
is unsupported; the stored value is keyed by the item's ID, overwriting any
previous binding. -/
theorem C9_add_other_item_contract (env : Env) (lca : LCA) (s : String)
    (it : ImpactItem) (q q2 : ℚ) (u : String) :
    (env.lookupItem s = some it →
      add_other_item env lca (ItemArg.str s) (PyVal.num q) u
        = add_other_item env lca (ItemArg.item it) (PyVal.num q) u) ∧
    (env.lookupItem s = none →
      add_other_item env lca (ItemArg.str s) (PyVal.num q) u
        = Except.error Err.keyError) ∧
    (Err.isLookupError Err.keyError = true ∧
      Err.isValueError Err.valueError = true) ∧
    ((u = "" ∨ u = it.functional_unit) →
      add_other_item env lca (ItemArg.item it) (PyVal.num q) u
        = Except.ok { lca with
            _other_items := setKey lca._other_items it.ID (PyVal.num q) }) ∧
    (u ≠ "" → u ≠ it.functional_unit →
      env.convert u it.functional_unit q = none →
      add_other_item env lca (ItemArg.item it) (PyVal.num q) u
        = Except.error Err.valueError) ∧
    (u ≠ "" → u ≠ it.functional_unit →
      env.convert u it.functional_unit q = some q2 →
      add_other_item env lca (ItemArg.item it) (PyVal.num q) u
        = Except.ok { lca with
            _other_items := setKey lca._other_items it.ID (PyVal.num q2) }) ∧
    (∀ v : PyVal, alookup (setKey lca._other_items it.ID v) it.ID = some v) := by
  refine ⟨?_, ?_, ⟨rfl, rfl⟩, ?_, ?_, ?_, fun v => alookup_setKey_self _ _ _⟩
  · intro h
    apply add_other_item_congr
    rw [resolveItem_str, h]
    rfl
  · intro h
    apply add_other_item_resolve_error
    rw [resolveItem_str, h]
  · intro h
    have hneg : ¬(u ≠ "" ∧ u ≠ it.functional_unit) := by
      rcases h with h | h
      · exact fun hc => hc.1 h
      · exact fun hc => hc.2 h
    show (if u ≠ "" ∧ u ≠ it.functional_unit then
            match env.convert u it.functional_unit q with
            | some q2 => (Except.ok { lca with
                _other_items := setKey lca._other_items it.ID (PyVal.num q2) }
                : Except Err LCA)
            | none => Except.error Err.valueError
          else (Except.ok { lca with
              _other_items := setKey lca._other_items it.ID (PyVal.num q) }
              : Except Err LCA))
        = (Except.ok { lca with
            _other_items := setKey lca._other_items it.ID (PyVal.num q) }
            : Except Err LCA)
    rw [if_neg hneg]
  · intro h1 h2 h3
    show (if u ≠ "" ∧ u ≠ it.functional_unit then
            match env.convert u it.functional_unit q with
            | some q2 => (Except.ok { lca with
                _other_items := setKey lca._other_items it.ID (PyVal.num q2) }
                : Except Err LCA)
            | none => Except.error Err.valueError
          else (Except.ok { lca with
              _other_items := setKey lca._other_items it.ID (PyVal.num q) }
              : Except Err LCA))
        = Except.error Err.valueError
    rw [if_pos ⟨h1, h2⟩, h3]
  · intro h1 h2 h3
    show (if u ≠ "" ∧ u ≠ it.functional_unit then
            match env.convert u it.functional_unit q with
            | some q3 => (Except.ok { lca with
                _other_items := setKey lca._other_items it.ID (PyVal.num q3) }
                : Except Err LCA)
            | none => Except.error Err.valueError
          else (Except.ok { lca with
              _other_items := setKey lca._other_items it.ID (PyVal.num q) }
              : Except Err LCA))
        = (Except.ok { lca with
            _other_items := setKey lca._other_items it.ID (PyVal.num q2) }
            : Except Err LCA)
    rw [if_pos ⟨h1, h2⟩, h3]

/-- C9 witness: concrete registry with the kWh-denominated electricity item;
each clause of the contract exercised on concrete inputs. -/
theorem C9_add_other_item_contract_witness :
    (env9.lookupItem "Electricity" = some itE ∧
      add_other_item env9 lca9 (ItemArg.str "Electricity") (PyVal.num 5) ""
        = add_other_item env9 lca9 (ItemArg.item itE) (PyVal.num 5) "") ∧
    (env9.lookupItem "Nope" = none ∧
      add_other_item env9 lca9 (ItemArg.str "Nope") (PyVal.num 5) ""
        = Except.error Err.keyError) ∧
    (add_other_item env9 lca9 (ItemArg.item itE) (PyVal.num 5) ""
        = Except.ok { lca9 with
            _other_items := setKey lca9._other_items itE.ID (PyVal.num 5) }) ∧
    (env9.convert "strange" "kWh" 5 = none ∧
      add_other_item env9 lca9 (ItemArg.item itE) (PyVal.num 5) "strange"
        = Except.error Err.valueError) ∧
    (env9.convert "MJ" "kWh" 5 = some 7 ∧
      add_other_item env9 lca9 (ItemArg.item itE) (PyVal.num 5) "MJ"
        = Except.ok { lca9 with
            _other_items := setKey lca9._other_items itE.ID (PyVal.num 7) }) :=
  ⟨⟨by decide,
    (C9_add_other_item_contract env9 lca9 "Electricity" itE 5 7 "").1 (by decide)⟩,
   ⟨by decide,
    (C9_add_other_item_contract env9 lca9 "Nope" itE 5 7 "").2.1 (by decide)⟩,
   (C9_add_other_item_contract env9 lca9 "Electricity" itE 5 7 "").2.2.2.1
     (Or.inl rfl),
   ⟨by decide,
    (C9_add_other_item_contract env9 lca9 "Electricity" itE 5 7 "strange").2.2.2.2.1
      (by decide) (by decide) (by decide)⟩,
   ⟨by decide,
    (C9_add_other_item_contract env9 lca9 "Electricity" itE 5 7 "MJ").2.2.2.2.2.1
      (by decide) (by decide) (by decide)⟩⟩

/-- C10: property assignment `lca.other_items = x` passes one positional
argument to the setter `def other_items(self, item, quantity, unit='')`,
whose `quantity` parameter has no default, so binding raises `TypeError` for
every assigned value; calling `add_other_item` directly with 2 or 3
positional arguments binds fine, making it the only working path. -/
theorem C10_other_items_setter_unusable (x : PyVal) :
    other_items_assign x = Except.error Err.typeError ∧
    bindPositional other_items_setter_params 1 = Except.error Err.typeError ∧
    bindPositional add_other_item_params 2 = Except.ok () ∧
    bindPositional add_other_item_params 3 = Except.ok () :=
  ⟨rfl, rfl, rfl, rfl⟩

end QSD
